import Mathlib

/-!
Verification development for the `webscraper` repository (src/webscraper.py).

The Python program is embedded shallowly:

* Python strings are `String`; the helpers `pyLower`, `pyEndsWith`,
  `pyContains`, `pyStrip`, `pyReplace` model `str.lower`, `str.endswith`,
  `in`, `str.strip(chars)` and `str.replace` (the patterns used by the
  program are nonempty, and `pyReplace` is specified for that case).
* `urlparse` models `urllib.parse.urlparse` for the fields the program
  reads (`netloc`, `path`): scheme split at the first `:` when the prefix
  is a valid scheme, `//`-netloc up to the first of `/ ? #`, fragment
  split at the first `#`, query at the first `?`, and the params split on
  the last path segment for schemes that use params.
* The visitation ledger (`self.file_op.visitedlinks`, a Python dict from
  URL to status string) is an association list `Ledger` with dict
  lookup/assignment semantics (`lookupL`, `insertL`).
* One invocation of `Scraper.scrape` on a single URL is `scrape`: the
  network outcome of `fetch` is an explicit `FetchResult` argument and the
  outcome of the try-block body (BeautifulSoup parsing, `extract_links`,
  `process_page`) is a `ProcOutcome` argument; recursive child tasks are
  abstracted into the scheduled-link lists of the result.  The result
  record reports the ledger after the call, whether an HTTP request was
  issued, whether an exception escaped the call or was caught by the
  per-page handler, whether `save_status` ran, whether `process_page`
  wrote the text file, and which links were routed to `scrape` vs
  `download_pdf`.
* `Scraper.download_pdf` is `download_pdf` with the same conventions.
-/

/-- Python `str.lower()` (the URLs handled are ASCII). -/
def pyLower (s : String) : String := ⟨s.toList.map Char.toLower⟩

/-- Python `s.endswith(suffix)`: the last `suffix.length` characters equal
`suffix` (false when `s` is shorter). -/
def pyEndsWith (s suffix : String) : Bool :=
  s.toList.drop (s.toList.length - suffix.toList.length) == suffix.toList

/-- Python `s.startswith(p)`. -/
def pyStartsWith (s p : String) : Bool :=
  p.toList.isPrefixOf s.toList

/-- Helper for `pyContains`: is `pat` an infix of the character list. -/
def containsAux (pat : List Char) : List Char → Bool
  | [] => pat.isEmpty
  | c :: cs => pat.isPrefixOf (c :: cs) || containsAux pat cs

/-- Python `sub in s` on strings. -/
def pyContains (s sub : String) : Bool := containsAux sub.toList s.toList

/-- Python `s.strip(c)` for a single strip character: remove leading and
trailing occurrences of `c`. -/
def pyStrip (s : String) (c : Char) : String :=
  ⟨((s.toList.dropWhile (· = c)).reverse.dropWhile (· = c)).reverse⟩

/-- Helper for `pyReplace`: replace every leftmost non-overlapping
occurrence of `pat` by `rep` (for nonempty `pat`, as used by the program).
The fuel argument, instantiated with the length of the scanned list, only
makes the recursion structural: at least one character is consumed per
step, so the `0, l` guard is never reached from `pyReplace`. -/
def replaceFuel (pat rep : List Char) : Nat → List Char → List Char
  | _, [] => []
  | 0, l => l
  | fuel + 1, c :: cs =>
    if pat ≠ [] ∧ pat.isPrefixOf (c :: cs) then
      rep ++ replaceFuel pat rep fuel (cs.drop (pat.length - 1))
    else
      c :: replaceFuel pat rep fuel cs

/-- Python `s.replace(pat, rep)` for nonempty `pat`. -/
def pyReplace (s pat rep : String) : String :=
  ⟨replaceFuel pat.toList rep.toList s.toList.length s.toList⟩

/-- Split a character list at the first occurrence of `c`
(Python `s.split(c, 1)` when `c` occurs; `none` when it does not). -/
def splitCharOnce (c : Char) : List Char → Option (List Char × List Char)
  | [] => none
  | x :: xs =>
    if x = c then some ([], xs)
    else (splitCharOnce c xs).map (fun p => (x :: p.1, p.2))

/-- Split a character list at the last occurrence of `c`. -/
def splitCharLast (c : Char) : List Char → Option (List Char × List Char)
  | [] => none
  | x :: xs =>
    match splitCharLast c xs with
    | some (a, b) => some (x :: a, b)
    | none => if x = c then some ([], xs) else none

/-- The characters allowed in a URL scheme after the leading letter
(`urllib.parse.scheme_chars`). -/
def schemeChar (c : Char) : Bool :=
  c.isAlpha || c.isDigit || c == '+' || c == '-' || c == '.'

/-- Scheme split of `urllib.parse.urlsplit`: at the first `:`, provided the
prefix is nonempty, starts with a letter and uses only scheme characters;
the scheme is lowercased.  Returns (scheme, rest). -/
def splitScheme (cs : List Char) : List Char × List Char :=
  match splitCharOnce ':' cs with
  | none => ([], cs)
  | some (before, after) =>
    match before with
    | [] => ([], cs)
    | b :: bs =>
      if b.isAlpha ∧ (b :: bs).all schemeChar then
        ((b :: bs).map Char.toLower, after)
      else
        ([], cs)

/-- Netloc scan of `urllib.parse.urlsplit`: the characters after `//` up to
the first of `/`, `?`, `#`.  Returns (netloc, rest including delimiter). -/
def takeNetloc : List Char → List Char × List Char
  | [] => ([], [])
  | c :: cs =>
    if c = '/' ∨ c = '?' ∨ c = '#' then ([], c :: cs)
    else
      let p := takeNetloc cs
      (c :: p.1, p.2)

/-- The schemes for which `urllib.parse.urlparse` splits params
(`urllib.parse.uses_params`). -/
def usesParams : List (List Char) :=
  [[], "ftp".toList, "hdl".toList, "prospero".toList, "http".toList,
   "imap".toList, "https".toList, "shttp".toList, "rtsp".toList,
   "rtspu".toList, "sip".toList, "sips".toList, "mms".toList,
   "sftp".toList, "tel".toList]

/-- `urllib.parse._splitparams`: split the params off the last path
segment at its first `;`. -/
def splitParams (cs : List Char) : List Char × List Char :=
  match splitCharLast '/' cs with
  | some (before, after) =>
    match splitCharOnce ';' after with
    | some (a, ps) => (before ++ '/' :: a, ps)
    | none => (cs, [])
  | none =>
    match splitCharOnce ';' cs with
    | some (a, ps) => (a, ps)
    | none => (cs, [])

/-- The result record of `urllib.parse.urlparse`. -/
structure ParseResult where
  scheme : String
  netloc : String
  path : String
  params : String
  query : String
  fragment : String
deriving DecidableEq

/-- `urllib.parse.urlparse` for the components the program reads:
scheme, `//`-netloc, fragment (first `#`), query (first `?` of what
remains), params (for schemes that use them), path. -/
def urlparse (url : String) : ParseResult :=
  let cs := url.toList
  let sp := splitScheme cs
  let scheme := sp.1
  let rest := sp.2
  let np :=
    match rest with
    | '/' :: '/' :: r => takeNetloc r
    | _ => ([], rest)
  let netloc := np.1
  let rest2 := np.2
  let fp :=
    match splitCharOnce '#' rest2 with
    | some (a, b) => (a, b)
    | none => (rest2, [])
  let rest3 := fp.1
  let fragment := fp.2
  let qp :=
    match splitCharOnce '?' rest3 with
    | some (a, b) => (a, b)
    | none => (rest3, [])
  let rest4 := qp.1
  let query := qp.2
  let pp :=
    if scheme ∈ usesParams ∧ ';' ∈ rest4 then splitParams rest4
    else (rest4, [])
  ⟨⟨scheme⟩, ⟨netloc⟩, ⟨pp.1⟩, ⟨pp.2⟩, ⟨query⟩, ⟨fragment⟩⟩

/-! ## The visitation ledger -/

/-- A visitation status recorded in `visitedlinks`. -/
inductive Status
  | pending
  | success
  | failed
deriving DecidableEq

/-- The in-memory ledger `self.file_op.visitedlinks`: a Python dict from
URL to status, as an insertion-ordered association list. -/
abbrev Ledger := List (String × Status)

/-- Dict membership / read: `url in visitedlinks`. -/
def lookupL : Ledger → String → Option Status
  | [], _ => none
  | (k, v) :: rest, u => if k = u then some v else lookupL rest u

/-- Dict assignment: `visitedlinks[url] = s` (overwrite in place, else
append). -/
def insertL : Ledger → String → Status → Ledger
  | [], u, s => [(u, s)]
  | (k, v) :: rest, u, s =>
    if k = u then (u, s) :: rest else (k, v) :: insertL rest u s

/-! ## FileOperation -/

/-- `os.path.join(a, b)` for one relative or absolute component. -/
def pyPathJoin (a b : String) : String :=
  if pyStartsWith b "/" then b
  else if pyEndsWith a "/" ∨ a = "" then a ++ b
  else a ++ "/" ++ b

/-- `FileOperation.create_file`: filename from the URL — the path with
leading/trailing slashes stripped and inner slashes replaced by
underscores, `"index"` when that is empty, joined to the data folder as
`<netloc>_<path>.txt`. -/
def create_file (data_folder url : String) : String :=
  let parsed := urlparse url
  let path0 := pyReplace (pyStrip parsed.path '/') "/" "_"
  let path1 := if path0 = "" then "index" else path0
  pyPathJoin data_folder (parsed.netloc ++ "_" ++ path1 ++ ".txt")

/-- The filename used by `FileOperation.write_pdf`:
`create_file(url).replace(".txt", ".pdf")`. -/
def write_pdf_filename (data_folder url : String) : String :=
  pyReplace (create_file data_folder url) ".txt" ".pdf"

/-! ## URLcheck -/

/-- `URLcheck.check_link`: the URL's netloc equals the configured domain
exactly. -/
def check_link (domain url : String) : Bool :=
  (urlparse url).netloc == domain

/-- The loop of `URLcheck.extract_links` over the resolved absolute URLs
`urljoin(base_url, a_tag['href'])` of the page's anchor tags, carried in
input order.  The first accumulator component models the Python set
`links` (membership, no duplicates), the second the appended lines of the
external-links file `extralinks.txt`. -/
def extractGo (domain : String) : List String → List String × List String → List String × List String
  | [], acc => acc
  | u :: rest, (ls, ex) =>
    if check_link domain u then
      extractGo domain rest ((if u ∈ ls then ls else ls ++ [u]), ex)
    else
      extractGo domain rest (ls, ex ++ [u])

/-- `URLcheck.extract_links` starting from an empty link set and, for the
purpose of this development, an empty external-link log: returns the
in-domain link set and the out-of-domain URLs appended to the log. -/
def extract_links (domain : String) (full_urls : List String) : List String × List String :=
  extractGo domain full_urls ([], [])

/-! ## Scraper -/

/-- The outcome of the HTTP GET issued by `Scraper.fetch` for a URL:
either a completed response with a status code and body text, or a
transport-level exception raised by the request. -/
inductive FetchResult
  | ok (status : Nat) (body : String)
  | exn
deriving DecidableEq

/-- `Scraper.fetch`: returns the body when the status is 200 and `None`
otherwise; a transport exception is not caught and propagates
(`Except.error`). -/
def fetch : FetchResult → Except Unit (Option String)
  | .ok s b => if s = 200 then .ok (some b) else .ok none
  | .exn => .error ()

/-- The lock-guarded check-and-set at the start of `Scraper.scrape`
(lines 150–153): under the lock, if the URL has an entry the caller loses
(`false`, ledger unchanged); otherwise the URL is marked `pending` and the
caller owns it (`true`). -/
def claim (l : Ledger) (url : String) : Bool × Ledger :=
  if (lookupL l url).isSome then (false, l)
  else (true, insertL l url Status.pending)

/-- The outcome of the body of `Scraper.scrape`'s try-block on a fetched
page: either some step of BeautifulSoup parsing, `extract_links` or
`process_page` raises, or processing succeeds and yields the in-domain
link set `links`. -/
inductive ProcOutcome
  | raises
  | links (ls : List String)
deriving DecidableEq

/-- The denylist filter of `Scraper.scrape` line 171:
`any(substring in link.lower() for substring in ["lxml"])` keeps the link
when false. -/
def keepLink (link : String) : Bool :=
  !(pyContains (pyLower link) "lxml")

/-- The routing test of `Scraper.scrape` line 173:
`link.lower().endswith(".pdf")`. -/
def isPdfLink (link : String) : Bool :=
  pyEndsWith (pyLower link) ".pdf"

/-- What one invocation of `Scraper.scrape` on one URL did: the ledger
afterwards, whether an HTTP request was issued for the URL, whether an
exception escaped the invocation, whether the per-page handler caught an
exception, whether `save_status` ran, whether `process_page` wrote the
text file, and the links handed to recursive `scrape` / `download_pdf`
tasks. -/
structure StepResult where
  ledger : Ledger
  fetched : Bool
  raised : Bool
  caught : Bool
  saved : Bool
  wroteText : Bool
  schedHtml : List String
  schedPdf : List String
deriving DecidableEq

/-- One invocation of `Scraper.scrape` on `url` (lines 146–182), with the
fetch outcome and the try-block outcome explicit and the recursive child
tasks abstracted into the scheduled-link lists: claim under the lock and
return if it fails; fetch (an uncaught transport exception escapes with
the URL left `pending`); on a non-200 status mark `failed` and return; on
200 mark `success`, then run the try-block — a processing exception is
caught and logged, otherwise the kept links are routed by `.pdf` suffix —
and finally `save_status`. -/
def scrape (l : Ledger) (url : String) (fr : FetchResult) (proc : ProcOutcome) : StepResult :=
  let c := claim l url
  if c.1 then
    let l1 := c.2
    match fr with
    | .exn => ⟨l1, true, true, false, false, false, [], []⟩
    | .ok s _ =>
      if s = 200 then
        let l2 := insertL l1 url Status.success
        match proc with
        | .raises => ⟨l2, true, false, true, true, false, [], []⟩
        | .links ls =>
          let kept := ls.filter keepLink
          ⟨l2, true, false, false, true, true,
            kept.filter (fun x => !(isPdfLink x)), kept.filter isPdfLink⟩
      else
        ⟨insertL l1 url Status.failed, true, false, false, false, false, [], []⟩
  else
    ⟨c.2, false, false, false, false, false, [], []⟩

/-- The outcome of the HTTP GET issued by `Scraper.download_pdf`: a
completed response, or an exception raised inside the try-block (by the
request or by `write_pdf`). -/
inductive PdfFetch
  | ok (status : Nat) (content : String)
  | exn
deriving DecidableEq

/-- What one invocation of `Scraper.download_pdf` did. -/
structure PdfResult where
  ledger : Ledger
  fetched : Bool
  wrotePdf : Bool
  raised : Bool
deriving DecidableEq

/-- `Scraper.download_pdf` (lines 184–200): issue the GET with no ledger
check; on status 200 write the PDF and set the URL to `success`, on any
other status set it to `failed`; any exception is caught and the URL set
to `failed`.  No exception escapes and `save_status` is not called. -/
def download_pdf (l : Ledger) (url : String) (fr : PdfFetch) : PdfResult :=
  match fr with
  | .ok s _ =>
    if s = 200 then ⟨insertL l url Status.success, true, true, false⟩
    else ⟨insertL l url Status.failed, true, false, false⟩
  | .exn => ⟨insertL l url Status.failed, true, false, false⟩

/-- The entry point `main` (lines 219–225; Lean reserves the name `main`
for executables, hence `mainEntry`): the root URL is handed directly to
`Scraper.scrape`, whatever the URL looks like; `l` is the ledger loaded
by `FileOperation.load_status` at startup. -/
def mainEntry (l : Ledger) (root : String) (fr : FetchResult) (proc : ProcOutcome) : StepResult :=
  scrape l root fr proc

/-! ## Ledger lemmas -/

theorem lookupL_insertL_self (l : Ledger) (u : String) (s : Status) :
    lookupL (insertL l u s) u = some s := by
  induction l with
  | nil => simp [insertL, lookupL]
  | cons kv rest ih =>
    obtain ⟨k, v⟩ := kv
    by_cases h : k = u
    · simp [insertL, h, lookupL]
    · simp [insertL, h, lookupL, ih]

theorem lookupL_insertL_ne (l : Ledger) (u v : String) (s : Status) (h : v ≠ u) :
    lookupL (insertL l u s) v = lookupL l v := by
  have huv : u ≠ v := fun he => h he.symm
  induction l with
  | nil => simp [insertL, lookupL, huv]
  | cons kv rest ih =>
    obtain ⟨k, w⟩ := kv
    by_cases hk : k = u
    · subst hk
      simp [insertL, lookupL, huv]
    · simp [insertL, hk, lookupL, ih]

/-! ## Branch equations for one `scrape` invocation -/

theorem scrape_eq_some (l : Ledger) (u : String) (fr : FetchResult) (proc : ProcOutcome)
    (s : Status) (h : lookupL l u = some s) :
    scrape l u fr proc = ⟨l, false, false, false, false, false, [], []⟩ := by
  simp [scrape, claim, h]

theorem scrape_eq_exn (l : Ledger) (u : String) (proc : ProcOutcome)
    (h : lookupL l u = none) :
    scrape l u FetchResult.exn proc =
      ⟨insertL l u Status.pending, true, true, false, false, false, [], []⟩ := by
  simp [scrape, claim, h]

theorem scrape_eq_fail (l : Ledger) (u : String) (s : Nat) (b : String) (proc : ProcOutcome)
    (h : lookupL l u = none) (hs : s ≠ 200) :
    scrape l u (FetchResult.ok s b) proc =
      ⟨insertL (insertL l u Status.pending) u Status.failed,
        true, false, false, false, false, [], []⟩ := by
  simp [scrape, claim, h, hs]

theorem scrape_eq_raises (l : Ledger) (u : String) (b : String)
    (h : lookupL l u = none) :
    scrape l u (FetchResult.ok 200 b) ProcOutcome.raises =
      ⟨insertL (insertL l u Status.pending) u Status.success,
        true, false, true, true, false, [], []⟩ := by
  simp [scrape, claim, h]

theorem scrape_eq_links (l : Ledger) (u : String) (b : String) (ls : List String)
    (h : lookupL l u = none) :
    scrape l u (FetchResult.ok 200 b) (ProcOutcome.links ls) =
      ⟨insertL (insertL l u Status.pending) u Status.success,
        true, false, false, true, true,
        (ls.filter keepLink).filter (fun x => !(isPdfLink x)),
        (ls.filter keepLink).filter isPdfLink⟩ := by
  simp [scrape, claim, h]

/-! ## Membership in the `extract_links` partition -/

theorem extractGo_cons_in (d : String) (v : String) (rest : List String)
    (ls ex : List String) (hc : check_link d v = true) :
    extractGo d (v :: rest) (ls, ex) =
      extractGo d rest ((if v ∈ ls then ls else ls ++ [v]), ex) := by
  simp [extractGo, hc]

theorem extractGo_cons_out (d : String) (v : String) (rest : List String)
    (ls ex : List String) (hc : ¬ check_link d v = true) :
    extractGo d (v :: rest) (ls, ex) = extractGo d rest (ls, ex ++ [v]) := by
  simp [extractGo, hc]

theorem extractGo_fst_mem (d : String) (urls : List String) (u : String) :
    ∀ ls ex : List String,
      (u ∈ (extractGo d urls (ls, ex)).1 ↔
        u ∈ ls ∨ (u ∈ urls ∧ check_link d u = true)) := by
  induction urls with
  | nil => intro ls ex; simp [extractGo]
  | cons v rest ih =>
    intro ls ex
    by_cases hc : check_link d v = true
    · rw [extractGo_cons_in d v rest ls ex hc, ih]
      have hin : u ∈ (if v ∈ ls then ls else ls ++ [v]) ↔ u ∈ ls ∨ u = v := by
        by_cases hv : v ∈ ls
        · simp only [if_pos hv]
          exact ⟨Or.inl, fun h => h.elim id (fun he => he ▸ hv)⟩
        · simp [if_neg hv]
      rw [hin]
      simp only [List.mem_cons]
      constructor
      · rintro ((h | rfl) | ⟨h, hk⟩)
        · exact Or.inl h
        · exact Or.inr ⟨Or.inl rfl, hc⟩
        · exact Or.inr ⟨Or.inr h, hk⟩
      · rintro (h | ⟨(rfl | h), hk⟩)
        · exact Or.inl (Or.inl h)
        · exact Or.inl (Or.inr rfl)
        · exact Or.inr ⟨h, hk⟩
    · rw [extractGo_cons_out d v rest ls ex hc, ih]
      simp only [List.mem_cons]
      constructor
      · rintro (h | ⟨h, hk⟩)
        · exact Or.inl h
        · exact Or.inr ⟨Or.inr h, hk⟩
      · rintro (h | ⟨(rfl | h), hk⟩)
        · exact Or.inl h
        · exact absurd hk hc
        · exact Or.inr ⟨h, hk⟩

theorem extractGo_snd_mem (d : String) (urls : List String) (u : String) :
    ∀ ls ex : List String,
      (u ∈ (extractGo d urls (ls, ex)).2 ↔
        u ∈ ex ∨ (u ∈ urls ∧ check_link d u = false)) := by
  induction urls with
  | nil => intro ls ex; simp [extractGo]
  | cons v rest ih =>
    intro ls ex
    by_cases hc : check_link d v = true
    · rw [extractGo_cons_in d v rest ls ex hc, ih]
      simp only [List.mem_cons]
      constructor
      · rintro (h | ⟨h, hk⟩)
        · exact Or.inl h
        · exact Or.inr ⟨Or.inr h, hk⟩
      · rintro (h | ⟨(rfl | h), hk⟩)
        · exact Or.inl h
        · rw [hc] at hk; cases hk
        · exact Or.inr ⟨h, hk⟩
    · rw [extractGo_cons_out d v rest ls ex hc, ih]
      have hb : check_link d v = false := by
        cases hcv : check_link d v
        · rfl
        · exact absurd hcv hc
      simp only [List.mem_append, List.mem_cons, List.not_mem_nil, or_false]
      constructor
      · rintro ((h | rfl) | ⟨h, hk⟩)
        · exact Or.inl h
        · exact Or.inr ⟨Or.inl rfl, hb⟩
        · exact Or.inr ⟨Or.inr h, hk⟩
      · rintro (h | ⟨(rfl | h), hk⟩)
        · exact Or.inl (Or.inl h)
        · exact Or.inl (Or.inr rfl)
        · exact Or.inr ⟨h, hk⟩

/-! ## Claims -/

/-- C1: the lock-guarded claim at the start of `Scraper.scrape` succeeds
and marks the URL `pending` iff the URL has no ledger entry; with any
existing entry it fails and leaves the ledger unchanged; and after a
successful claim a second claim of the same URL fails, so two callers
never both succeed. -/
theorem claim_atomic_spec (l : Ledger) (u : String) :
    ((claim l u).1 = true ∧ (claim l u).2 = insertL l u Status.pending ↔
      lookupL l u = none)
    ∧ (∀ s, lookupL l u = some s → claim l u = (false, l))
    ∧ ((claim l u).1 = true → (claim (claim l u).2 u).1 = false) := by
  refine ⟨⟨?_, ?_⟩, ?_, ?_⟩
  · rintro ⟨h1, _⟩
    cases hs : lookupL l u with
    | none => rfl
    | some s => rw [claim, hs] at h1; simp at h1
  · intro h
    rw [claim, h]
    exact ⟨rfl, rfl⟩
  · intro s h
    rw [claim, h]
    rfl
  · intro h1
    have hnone : lookupL l u = none := by
      cases hs : lookupL l u with
      | none => rfl
      | some s => rw [claim, hs] at h1; simp at h1
    have hcl : claim l u = (true, insertL l u Status.pending) := by
      rw [claim, hnone]
      rfl
    rw [hcl]
    simp [claim, lookupL_insertL_self]

/-- Witness for C1 at concrete inputs: a claim of an already-`success`
URL fails and changes nothing, and a second claim of a freshly claimed
URL fails. -/
theorem claim_atomic_spec_witness :
    claim [("a", Status.success)] "a" = (false, [("a", Status.success)])
    ∧ (claim (claim ([] : Ledger) "a").2 "a").1 = false :=
  ⟨(claim_atomic_spec [("a", Status.success)] "a").2.1 Status.success (by decide),
   (claim_atomic_spec ([] : Ledger) "a").2.2 (by decide)⟩

/-- C2 counterexample: `Scraper.download_pdf` writes a terminal ledger
state without consulting the ledger, so a URL already terminal `success`
is overwritten with the other terminal state `failed` when a later
download of the same URL gets a non-200 response — the claimed
unclaimed → pending → terminal monotonicity fails for the PDF path. -/
theorem download_pdf_overwrites_terminal_cex :
    lookupL [("https://h/x.pdf", Status.success)] "https://h/x.pdf" = some Status.success
    ∧ lookupL (download_pdf [("https://h/x.pdf", Status.success)] "https://h/x.pdf"
        (PdfFetch.ok 404 "")).ledger "https://h/x.pdf" = some Status.failed := by
  decide

/-- C2 amended: the forward discipline holds on the HTML path — a
`scrape` invocation leaves the ledger unchanged when the URL already has
an entry, and for an absent URL it touches only that URL, leaving it
`pending` (exactly when the fetch raised), `success`, or `failed`;
`download_pdf` (see the counterexample) writes terminal states
unconditionally. -/
theorem scrape_ledger_forward (l : Ledger) (u : String) (fr : FetchResult) (proc : ProcOutcome) :
    ((lookupL l u).isSome → (scrape l u fr proc).ledger = l)
    ∧ (lookupL l u = none →
        (∀ v, v ≠ u → lookupL (scrape l u fr proc).ledger v = lookupL l v)
        ∧ (lookupL (scrape l u fr proc).ledger u = some Status.pending
            ∨ lookupL (scrape l u fr proc).ledger u = some Status.success
            ∨ lookupL (scrape l u fr proc).ledger u = some Status.failed)
        ∧ (lookupL (scrape l u fr proc).ledger u = some Status.pending →
            (scrape l u fr proc).raised = true)) := by
  constructor
  · intro hsome
    obtain ⟨s, hs⟩ := Option.isSome_iff_exists.mp hsome
    rw [scrape_eq_some l u fr proc s hs]
  · intro h
    cases fr with
    | exn =>
      rw [scrape_eq_exn l u proc h]
      exact ⟨fun v hv => lookupL_insertL_ne _ _ _ _ hv,
        Or.inl (lookupL_insertL_self _ _ _), fun _ => rfl⟩
    | ok s b =>
      by_cases hs : s = 200
      · subst hs
        cases proc with
        | raises =>
          rw [scrape_eq_raises l u b h]
          refine ⟨fun v hv => ?_, Or.inr (Or.inl (lookupL_insertL_self _ _ _)), fun hp => ?_⟩
          · rw [lookupL_insertL_ne _ _ _ _ hv, lookupL_insertL_ne _ _ _ _ hv]
          · rw [lookupL_insertL_self] at hp
            simp at hp
        | links ls =>
          rw [scrape_eq_links l u b ls h]
          refine ⟨fun v hv => ?_, Or.inr (Or.inl (lookupL_insertL_self _ _ _)), fun hp => ?_⟩
          · rw [lookupL_insertL_ne _ _ _ _ hv, lookupL_insertL_ne _ _ _ _ hv]
          · rw [lookupL_insertL_self] at hp
            simp at hp
      · rw [scrape_eq_fail l u s b proc h hs]
        refine ⟨fun v hv => ?_, Or.inr (Or.inr (lookupL_insertL_self _ _ _)), fun hp => ?_⟩
        · rw [lookupL_insertL_ne _ _ _ _ hv, lookupL_insertL_ne _ _ _ _ hv]
        · rw [lookupL_insertL_self] at hp
          simp at hp

/-- Witness for the amended C2 theorem at a concrete input: a `scrape` of
a URL whose entry is terminal `failed` leaves the ledger unchanged. -/
theorem scrape_ledger_forward_witness :
    (scrape [("u", Status.failed)] "u" FetchResult.exn ProcOutcome.raises).ledger
      = [("u", Status.failed)] :=
  (scrape_ledger_forward [("u", Status.failed)] "u" FetchResult.exn ProcOutcome.raises).1
    (by decide)

/-- C3 counterexample: a PDF URL already terminal `success` in the loaded
ledger is still fetched when a page links to it — `download_pdf` never
consults the ledger before issuing its request. -/
theorem terminal_pdf_refetch_cex :
    lookupL [("https://h/x.pdf", Status.success)] "https://h/x.pdf" = some Status.success
    ∧ (download_pdf [("https://h/x.pdf", Status.success)] "https://h/x.pdf"
        (PdfFetch.ok 200 "b")).fetched = true := by
  decide

/-- C3 amended: a URL with any existing ledger entry (in particular a
terminal one from a loaded ledger) is never fetched through the HTML
`scrape` path — the invocation returns before any network request with
the ledger unchanged and no persist; the PDF download path issues its
fetch unconditionally. -/
theorem terminal_skip_html_path (l : Ledger) (u : String) (fr : FetchResult)
    (proc : ProcOutcome) (s : Status) (h : lookupL l u = some s) :
    (scrape l u fr proc).fetched = false
    ∧ (scrape l u fr proc).ledger = l
    ∧ (scrape l u fr proc).saved = false
    ∧ ∀ (l' : Ledger) (u' : String) (fr' : PdfFetch), (download_pdf l' u' fr').fetched = true := by
  rw [scrape_eq_some l u fr proc s h]
  refine ⟨rfl, rfl, rfl, fun l' u' fr' => ?_⟩
  cases fr' with
  | ok st c =>
    by_cases h2 : st = 200 <;> simp [download_pdf, h2]
  | exn => rfl

/-- Witness for the amended C3 theorem at a concrete input: a `success`
URL is not fetched by `scrape`. -/
theorem terminal_skip_html_path_witness :
    (scrape [("u", Status.success)] "u" FetchResult.exn ProcOutcome.raises).fetched = false :=
  (terminal_skip_html_path [("u", Status.success)] "u" FetchResult.exn ProcOutcome.raises
    Status.success (by decide)).1

/-- C4 counterexample: a transport exception during the HTML fetch is not
handled like a non-success status — it escapes the `scrape` invocation
(there is no try/except around `fetch`) and the URL stays `pending`, not
`failed`. -/
theorem transport_exn_unhandled_cex :
    (scrape [] "https://h/a" FetchResult.exn (ProcOutcome.links [])).raised = true
    ∧ lookupL (scrape [] "https://h/a" FetchResult.exn (ProcOutcome.links [])).ledger
        "https://h/a" = some Status.pending
    ∧ lookupL (scrape [] "https://h/a" FetchResult.exn (ProcOutcome.links [])).ledger
        "https://h/a" ≠ some Status.failed := by
  decide

/-- C4 amended: a fetch that completes with a non-success status marks
the URL `failed`, prunes the subtree (no links scheduled, no text
written) and raises nothing; but a transport exception in the HTML fetch
propagates out of `scrape` leaving the URL `pending`, and only
`download_pdf` treats an exception as a failure. -/
theorem fetch_failure_handling (l : Ledger) (u : String) (s : Nat) (b : String)
    (proc : ProcOutcome) (h : lookupL l u = none) (hs : s ≠ 200) :
    lookupL (scrape l u (FetchResult.ok s b) proc).ledger u = some Status.failed
    ∧ (scrape l u (FetchResult.ok s b) proc).raised = false
    ∧ (scrape l u (FetchResult.ok s b) proc).schedHtml = []
    ∧ (scrape l u (FetchResult.ok s b) proc).schedPdf = []
    ∧ (scrape l u (FetchResult.ok s b) proc).wroteText = false
    ∧ (scrape l u FetchResult.exn proc).raised = true
    ∧ lookupL (scrape l u FetchResult.exn proc).ledger u = some Status.pending
    ∧ lookupL (download_pdf l u PdfFetch.exn).ledger u = some Status.failed := by
  rw [scrape_eq_fail l u s b proc h hs, scrape_eq_exn l u proc h]
  exact ⟨lookupL_insertL_self _ _ _, rfl, rfl, rfl, rfl, rfl,
    lookupL_insertL_self _ _ _, lookupL_insertL_self _ _ _⟩

/-- Witness for the amended C4 theorem at a concrete input: a 404 fetch
marks the URL `failed`. -/
theorem fetch_failure_handling_witness :
    lookupL (scrape [] "u" (FetchResult.ok 404 "") ProcOutcome.raises).ledger "u"
      = some Status.failed :=
  (fetch_failure_handling [] "u" 404 "" ProcOutcome.raises (by decide) (by decide)).1

/-- C5 counterexample: the routing test is `link.lower().endswith(".pdf")`
on the whole URL string, not on the path — a URL whose path ends in
`.pdf` but which carries a query string is scheduled on the HTML path,
not the PDF path; and the seed URL is handed to the HTML `scrape` path
unconditionally, so a `.pdf` seed is processed as HTML text. -/
theorem pdf_path_routing_cex :
    (urlparse "https://h/a.pdf?x=1").path = "/a.pdf"
    ∧ (scrape [] "https://h/p" (FetchResult.ok 200 "")
        (ProcOutcome.links ["https://h/a.pdf?x=1"])).schedHtml = ["https://h/a.pdf?x=1"]
    ∧ (scrape [] "https://h/p" (FetchResult.ok 200 "")
        (ProcOutcome.links ["https://h/a.pdf?x=1"])).schedPdf = []
    ∧ (mainEntry [] "https://h/x.pdf" (FetchResult.ok 200 "")
        (ProcOutcome.links [])).wroteText = true := by
  decide

/-- C5 amended: an extracted link is routed to `download_pdf` iff it
passes the denylist and its lowercased full URL string ends in `".pdf"`
(the path component is not consulted), it is routed to the HTML `scrape`
path iff it passes the denylist and the URL string does not end in
`".pdf"`, and the seed URL always enters through the HTML `scrape`
path. -/
theorem pdf_routing_spec (l : Ledger) (u b : String) (ls : List String) (link : String)
    (h : lookupL l u = none) (hmem : link ∈ ls) :
    (link ∈ (scrape l u (FetchResult.ok 200 b) (ProcOutcome.links ls)).schedPdf ↔
      keepLink link = true ∧ isPdfLink link = true)
    ∧ (link ∈ (scrape l u (FetchResult.ok 200 b) (ProcOutcome.links ls)).schedHtml ↔
      keepLink link = true ∧ isPdfLink link = false)
    ∧ (∀ (l' : Ledger) (root : String) (fr : FetchResult) (proc : ProcOutcome),
        mainEntry l' root fr proc = scrape l' root fr proc) := by
  rw [scrape_eq_links l u b ls h]
  refine ⟨?_, ?_, fun _ _ _ _ => rfl⟩
  · simp [List.mem_filter, hmem, and_comm]
  · simp [List.mem_filter, hmem, and_comm]

/-- Witness for the amended C5 theorem at a concrete input: a plain
`.pdf` link is scheduled on the PDF path. -/
theorem pdf_routing_spec_witness :
    "https://h/d.pdf" ∈ (scrape [] "https://h/p" (FetchResult.ok 200 "")
      (ProcOutcome.links ["https://h/d.pdf"])).schedPdf :=
  ((pdf_routing_spec [] "https://h/p" "" ["https://h/d.pdf"] "https://h/d.pdf"
    (by decide) (by simp)).1).mpr (by decide)

/-- C6: `URLcheck.check_link` accepts a URL iff its netloc equals the
configured domain exactly, and in the `extract_links` partition an
extracted URL failing the check is appended to the external-link log and
excluded from the returned link set, while one passing the check is in
the returned link set and not logged. -/
theorem domain_filter_spec (d : String) :
    (∀ u : String, check_link d u = true ↔ (urlparse u).netloc = d)
    ∧ (∀ (urls : List String) (u : String), u ∈ urls →
        (check_link d u = true →
          u ∈ (extract_links d urls).1 ∧ u ∉ (extract_links d urls).2)
        ∧ (check_link d u = false →
          u ∈ (extract_links d urls).2 ∧ u ∉ (extract_links d urls).1)) := by
  constructor
  · intro u
    simp [check_link]
  · intro urls u hmem
    unfold extract_links
    constructor
    · intro hck
      refine ⟨(extractGo_fst_mem d urls u [] []).mpr (Or.inr ⟨hmem, hck⟩), fun hcon => ?_⟩
      rcases (extractGo_snd_mem d urls u [] []).mp hcon with hc | ⟨_, hk⟩
      · exact absurd hc (List.not_mem_nil u)
      · rw [hck] at hk
        cases hk
    · intro hck
      refine ⟨(extractGo_snd_mem d urls u [] []).mpr (Or.inr ⟨hmem, hck⟩), fun hcon => ?_⟩
      rcases (extractGo_fst_mem d urls u [] []).mp hcon with hc | ⟨_, hk⟩
      · exact absurd hc (List.not_mem_nil u)
      · rw [hck] at hk
        cases hk

/-- Witness for C6 at the spec's concrete example: the out-of-domain link
`http://other.example.com/page` lands in the external log, not in the
scheduled set, when the domain is `example.com`. -/
theorem domain_filter_spec_witness :
    "http://other.example.com/page" ∈
      (extract_links "example.com"
        ["http://other.example.com/page", "http://example.com/a"]).2 :=
  (((domain_filter_spec "example.com").2
      ["http://other.example.com/page", "http://example.com/a"]
      "http://other.example.com/page" (by simp)).2 (by decide)).1

/-- Every `pyPathJoin` of a component ending in `ext` ends in `ext`. -/
theorem pyPathJoin_ext (a x ext : String) :
    ∃ base, pyPathJoin a (x ++ ext) = base ++ ext := by
  unfold pyPathJoin
  split
  · exact ⟨x, rfl⟩
  · split
    · exact ⟨a ++ x, (String.append_assoc a x ext).symm⟩
    · exact ⟨a ++ "/" ++ x, (String.append_assoc (a ++ "/") x ext).symm⟩

/-- C7: `create_file` maps `https://host.tld/` (empty path) to the
sentinel `index` filename `host.tld_index.txt` and `https://host.tld/a/b`
to `host.tld_a_b.txt` in the data folder; every text filename ends in
`.txt`; and the filename used by `write_pdf` for a PDF URL ends in
`.pdf`. -/
theorem create_file_spec :
    create_file "wscadata" "https://host.tld/" = "wscadata/host.tld_index.txt"
    ∧ create_file "wscadata" "https://host.tld/a/b" = "wscadata/host.tld_a_b.txt"
    ∧ (∀ d u : String, ∃ base : String, create_file d u = base ++ ".txt")
    ∧ write_pdf_filename "wscadata" "https://host.tld/a/b.pdf"
        = "wscadata/host.tld_a_b.pdf.pdf"
    ∧ pyEndsWith (write_pdf_filename "wscadata" "https://host.tld/a/b.pdf") ".pdf" = true := by
  refine ⟨by decide, by decide, fun d u => pyPathJoin_ext d _ ".txt", by decide, by decide⟩

/-- C8: an exception in the try-block of a successfully fetched page
(parsing, link extraction, text processing) is caught by the per-page
handler — nothing escapes the `scrape` invocation, the URL's ledger entry
stays `success`, and `save_status` still runs. -/
theorem page_processing_error_spec (l : Ledger) (u b : String) (h : lookupL l u = none) :
    (scrape l u (FetchResult.ok 200 b) ProcOutcome.raises).raised = false
    ∧ (scrape l u (FetchResult.ok 200 b) ProcOutcome.raises).caught = true
    ∧ lookupL (scrape l u (FetchResult.ok 200 b) ProcOutcome.raises).ledger u
        = some Status.success
    ∧ (scrape l u (FetchResult.ok 200 b) ProcOutcome.raises).saved = true := by
  rw [scrape_eq_raises l u b h]
  exact ⟨rfl, rfl, lookupL_insertL_self _ _ _, rfl⟩

/-- Witness for C8 at a concrete input: the processing exception is
caught. -/
theorem page_processing_error_spec_witness :
    (scrape [] "u" (FetchResult.ok 200 "") ProcOutcome.raises).caught = true :=
  (page_processing_error_spec [] "u" "" (by decide)).2.1

/-- C9: `Scraper.fetch` returns the page body exactly when the response
status is 200; every other status — including other 2xx statuses such as
201 and 204 — yields `None`. -/
theorem fetch_status_spec :
    (∀ (s : Nat) (b : String), fetch (FetchResult.ok s b) = Except.ok (some b) ↔ s = 200)
    ∧ (∀ (s : Nat) (b : String), s ≠ 200 → fetch (FetchResult.ok s b) = Except.ok none)
    ∧ fetch (FetchResult.ok 201 "x") = Except.ok none
    ∧ fetch (FetchResult.ok 204 "x") = Except.ok none := by
  refine ⟨fun s b => ⟨fun h => ?_, fun h => by rw [fetch, if_pos h]⟩,
    fun s b h => by rw [fetch, if_neg h], rfl, rfl⟩
  by_contra hs
  rw [fetch, if_neg hs] at h
  simp at h

/-- Witness for C9 at concrete inputs: status 200 yields the body and
status 404 yields `None`. -/
theorem fetch_status_spec_witness :
    fetch (FetchResult.ok 200 "page") = Except.ok (some "page")
    ∧ fetch (FetchResult.ok 404 "e") = Except.ok none :=
  ⟨(fetch_status_spec.1 200 "page").mpr rfl, fetch_status_spec.2.1 404 "e" (by decide)⟩

/-- C10: when the fetch of a claimed URL completes with a non-success
status, the invocation records `failed` only in the in-memory ledger and
returns before `save_status` — the on-disk ledger file is not rewritten
on that path. -/
theorem failed_fetch_no_persist (l : Ledger) (u : String) (s : Nat) (b : String)
    (proc : ProcOutcome) (h : lookupL l u = none) (hs : s ≠ 200) :
    (scrape l u (FetchResult.ok s b) proc).saved = false
    ∧ lookupL (scrape l u (FetchResult.ok s b) proc).ledger u = some Status.failed
    ∧ (scrape l u (FetchResult.ok s b) proc).fetched = true := by
  rw [scrape_eq_fail l u s b proc h hs]
  exact ⟨rfl, lookupL_insertL_self _ _ _, rfl⟩

/-- Witness for C10 at a concrete input: after a 500 fetch, `save_status`
has not run. -/
theorem failed_fetch_no_persist_witness :
    (scrape [] "u" (FetchResult.ok 500 "") (ProcOutcome.links [])).saved = false :=
  (failed_fetch_no_persist [] "u" 500 "" (ProcOutcome.links []) (by decide) (by decide)).1
